import Mathlib

/-!
Verification of the smart_wallet financial engine (wallet app).

The definitions below are a shallow embedding of the Python source:
`wallet/views.py` (dashboard aggregation, list querysets, the JSON API
handlers) and `wallet/forms.py` (the form-level validation rules).
Monetary amounts are Python `Decimal` values, embedded as exact
rationals; calendar dates are embedded as year/month/day triples ordered
lexicographically (which agrees with both Python `date` ordering and the
ordering of `isoformat` strings used as sort keys in the views);
database `created_at` / `updated_at` timestamps are naturals.
-/

namespace SmartWallet

/-- A calendar date (`datetime.date`): year, month, day. -/
structure Date where
  year : Int
  month : Nat
  day : Nat
  deriving DecidableEq, Repr

namespace Date

/-- Lexicographic order on dates, matching Python `date` comparison and the
comparison of ISO `YYYY-MM-DD` strings used as sort keys in the views. -/
def leb (a b : Date) : Bool :=
  if a.year ≠ b.year then decide (a.year < b.year)
  else if a.month ≠ b.month then decide (a.month < b.month)
  else decide (a.day ≤ b.day)

theorem leb_refl (a : Date) : a.leb a = true := by
  simp [leb]

theorem leb_total (a b : Date) : a.leb b = true ∨ b.leb a = true := by
  simp only [leb, ne_eq]
  split_ifs <;> simp only [decide_eq_true_eq] <;> omega

theorem leb_trans {a b c : Date} (h1 : a.leb b = true) (h2 : b.leb c = true) :
    a.leb c = true := by
  simp only [leb, ne_eq] at h1 h2 ⊢
  split_ifs at h1 h2 ⊢ <;> simp_all <;> omega

theorem leb_antisymm {a b : Date} (h1 : a.leb b = true) (h2 : b.leb a = true) :
    a = b := by
  obtain ⟨ya, ma, da⟩ := a
  obtain ⟨yb, mb, db⟩ := b
  simp only [leb, ne_eq, mk.injEq] at h1 h2 ⊢
  split_ifs at h1 h2 <;> simp_all <;> omega

/-- `date.today().replace(year=date.today().year + 1)` from `forms.py`. -/
def replaceYearSucc (d : Date) : Date :=
  { d with year := d.year + 1 }

end Date

/-- Monetary amounts: Python `Decimal` values are exact decimal fractions,
embedded as exact rationals. -/
abbrev Money := ℚ

/-- `wallet.models.Category` (fields per the data model: id, unique name,
created_at). -/
structure Category where
  id : Nat
  name : String
  createdAt : Nat
  deriving DecidableEq, Repr

/-- `wallet.models.Income` row. `categoryId` is the FK to `Category`. -/
structure Income where
  id : Nat
  categoryId : Nat
  source : String
  amount : Money
  date : Date
  note : String
  createdAt : Nat
  updatedAt : Nat
  deriving DecidableEq, Repr

/-- `wallet.models.Expense` row. -/
structure Expense where
  id : Nat
  title : String
  amount : Money
  date : Date
  createdAt : Nat
  updatedAt : Nat
  deriving DecidableEq, Repr

/-- The database state: all persisted rows of the three tables. -/
structure Store where
  categories : List Category
  incomes : List Income
  expenses : List Expense
  deriving DecidableEq, Repr

/-- The ordering `order_by(-date, -created_at)` used by the income
querysets: more recent date first, ties broken by more recent
`created_at`. `before a b` means `a` may appear before `b`. -/
def Income.before (a b : Income) : Prop :=
  b.date.leb a.date = true ∧ (a.date = b.date → b.createdAt ≤ a.createdAt)

instance : DecidableRel Income.before := fun a b => by
  unfold Income.before; infer_instance

instance : IsTotal Income Income.before := by
  constructor
  intro a b
  rcases Date.leb_total a.date b.date with h | h
  · by_cases hre : b.date.leb a.date = true
    · by_cases hc : a.createdAt ≤ b.createdAt
      · exact Or.inr ⟨h, fun _ => hc⟩
      · exact Or.inl ⟨hre, fun _ => by omega⟩
    · exact Or.inr ⟨h, fun he => absurd (he ▸ Date.leb_refl a.date) hre⟩
  · by_cases hre : a.date.leb b.date = true
    · by_cases hc : a.createdAt ≤ b.createdAt
      · exact Or.inr ⟨hre, fun _ => hc⟩
      · exact Or.inl ⟨h, fun _ => by omega⟩
    · exact Or.inl ⟨h, fun he => absurd (he ▸ Date.leb_refl a.date) hre⟩

instance : IsTrans Income Income.before := by
  constructor
  intro a b c ⟨hab, hab'⟩ ⟨hbc, hbc'⟩
  refine ⟨Date.leb_trans hbc hab, fun hac => ?_⟩
  have hba : a.date.leb b.date = true := hac ▸ hbc
  have h1 : a.date = b.date := Date.leb_antisymm hba hab
  have h2 : b.date = c.date := by rw [← h1, hac]
  have := hab' h1
  have := hbc' h2
  omega

/-- The ordering `order_by(-date, -created_at)` used by the expense
querysets. -/
def Expense.before (a b : Expense) : Prop :=
  b.date.leb a.date = true ∧ (a.date = b.date → b.createdAt ≤ a.createdAt)

instance : DecidableRel Expense.before := fun a b => by
  unfold Expense.before; infer_instance

instance : IsTotal Expense Expense.before := by
  constructor
  intro a b
  rcases Date.leb_total a.date b.date with h | h
  · by_cases hre : b.date.leb a.date = true
    · by_cases hc : a.createdAt ≤ b.createdAt
      · exact Or.inr ⟨h, fun _ => hc⟩
      · exact Or.inl ⟨hre, fun _ => by omega⟩
    · exact Or.inr ⟨h, fun he => absurd (he ▸ Date.leb_refl a.date) hre⟩
  · by_cases hre : a.date.leb b.date = true
    · by_cases hc : a.createdAt ≤ b.createdAt
      · exact Or.inr ⟨hre, fun _ => hc⟩
      · exact Or.inl ⟨h, fun _ => by omega⟩
    · exact Or.inl ⟨h, fun he => absurd (he ▸ Date.leb_refl a.date) hre⟩

instance : IsTrans Expense Expense.before := by
  constructor
  intro a b c ⟨hab, hab'⟩ ⟨hbc, hbc'⟩
  refine ⟨Date.leb_trans hbc hab, fun hac => ?_⟩
  have hba : a.date.leb b.date = true := hac ▸ hbc
  have h1 : a.date = b.date := Date.leb_antisymm hba hab
  have h2 : b.date = c.date := by rw [← h1, hac]
  have := hab' h1
  have := hbc' h2
  omega

/-- The ordering `order_by(-date)` (date only, most recent first) used by
the search endpoint per record kind. -/
def Income.dateBefore (a b : Income) : Prop := b.date.leb a.date = true

instance : DecidableRel Income.dateBefore := fun a b => by
  unfold Income.dateBefore; infer_instance

/-- `order_by(-date)` for expenses (search endpoint). -/
def Expense.dateBefore (a b : Expense) : Prop := b.date.leb a.date = true

instance : DecidableRel Expense.dateBefore := fun a b => by
  unfold Expense.dateBefore; infer_instance

/-- A serialized transaction entry as built by the dashboard, transaction
and search JSON endpoints (id, type, title, category name, amount, date,
note). -/
structure Txn where
  id : Nat
  type : String
  title : String
  category : String
  amount : Money
  date : Date
  note : String
  deriving DecidableEq, Repr

/-- `recent_transactions.sort(key=lambda x: x[date], reverse=True)`:
sorting the combined entries by ISO date string, newest first.  Comparing
ISO `YYYY-MM-DD` strings coincides with comparing the dates. -/
def Txn.before (a b : Txn) : Prop := b.date.leb a.date = true

instance : DecidableRel Txn.before := fun a b => by
  unfold Txn.before; infer_instance

instance : IsTotal Txn Txn.before :=
  ⟨fun a b => (Date.leb_total b.date a.date).imp id id⟩

instance : IsTrans Txn Txn.before :=
  ⟨fun _ _ _ hab hbc => Date.leb_trans hbc hab⟩

/-- Resolve an income row's category name through the FK
(`income.category.name`).  The store invariant guarantees the category
exists; a dangling FK resolves to the empty string. -/
def categoryNameOf (s : Store) (cid : Nat) : String :=
  match s.categories.find? (fun c => c.id = cid) with
  | some c => c.name
  | none => ""

/-- Django `aggregate(total=Sum(amount))[total]`: `None` when the
queryset is empty, otherwise the exact decimal sum of the column. -/
def aggregateSum (l : List Money) : Option Money :=
  match l with
  | [] => none
  | _ => some l.sum

/-- `DashboardView.calculate_total_income` (also inlined in
`DashboardDataAPIView.get`): the aggregate sum, with `None` replaced by
`Decimal(0.00)`. -/
def calculate_total_income (s : Store) : Money :=
  (aggregateSum (s.incomes.map Income.amount)).getD 0

/-- `DashboardView.calculate_total_expenses` (also inlined in
`DashboardDataAPIView.get`). -/
def calculate_total_expenses (s : Store) : Money :=
  (aggregateSum (s.expenses.map Expense.amount)).getD 0

/-- `DashboardView.calculate_balance`: income minus expenses. -/
def calculate_balance (total_income total_expenses : Money) : Money :=
  total_income - total_expenses

theorem calculate_total_income_eq_sum (s : Store) :
    calculate_total_income s = (s.incomes.map Income.amount).sum := by
  unfold calculate_total_income aggregateSum
  cases s.incomes <;> simp

theorem calculate_total_expenses_eq_sum (s : Store) :
    calculate_total_expenses s = (s.expenses.map Expense.amount).sum := by
  unfold calculate_total_expenses aggregateSum
  cases s.expenses <;> simp

/-- The filter parameters accepted by the income/expense list views.
`search` and `category` arrive as raw strings (absent parameters default
to the empty string, as `request.GET.get(..., '')` does).  For the date
and amount bounds, the outer `Option` records whether a non-empty value
was supplied and the inner `Option` is the result of parsing it
(`datetime.strptime` / `Decimal`), `none` meaning the parse raised. -/
structure ListParams where
  search : String
  category : String
  date_from : Option (Option Date)
  date_to : Option (Option Date)
  amount_min : Option (Option Money)
  amount_max : Option (Option Money)
  deriving Repr

/-- A request with no filter parameters supplied. -/
def noFilters : ListParams := ⟨"", "", none, none, none, none⟩

/-- Leading/trailing-whitespace removal on a character list. -/
def stripChars (l : List Char) : List Char :=
  ((l.dropWhile Char.isWhitespace).reverse.dropWhile Char.isWhitespace).reverse

/-- Python `str.strip()`: remove leading and trailing whitespace. -/
def strip (s : String) : String := ⟨stripChars s.data⟩

/-- Lowercase a string (for case-insensitive matching). -/
def lowerStr (s : String) : String := ⟨s.data.map Char.toLower⟩

/-- Character-list prefix test (used to embed substring matching). -/
def charsStartWith : List Char → List Char → Bool
  | [], _ => true
  | _ :: _, [] => false
  | a :: as, b :: bs => a == b && charsStartWith as bs

/-- Character-list substring test. -/
def charsHasSub (needle : List Char) : List Char → Bool
  | [] => needle.isEmpty
  | c :: rest => charsStartWith needle (c :: rest) || charsHasSub needle rest

/-- Django `field__icontains=q`: case-insensitive substring match. -/
def icontains (hay q : String) : Bool :=
  charsHasSub (lowerStr q).data (lowerStr hay).data

/-- The search predicate of `IncomeListView.get_queryset`:
`source__icontains | note__icontains | category__name__icontains`. -/
def incomeSearchPred (s : Store) (q : String) (i : Income) : Bool :=
  icontains i.source q || icontains i.note q ||
    icontains (categoryNameOf s i.categoryId) q

/-- Apply one optional date-range predicate: the filter runs only when
the parameter was supplied and parsed; a supplied but unparsable date
makes `strptime` raise `ValueError`, which the handler catches and
silently skips (`except ValueError: pass`). -/
def applyOptFilter {α β : Type} (param : Option (Option β)) (f : β → α → Bool)
    (l : List α) : List α :=
  match param with
  | some (some v) => l.filter (f v)
  | _ => l

/-- Apply one optional amount-range predicate: an absent parameter is
skipped and a parsed value filters; but a supplied, unparsable value
makes `Decimal` raise `decimal.InvalidOperation` (an `ArithmeticError`),
which the handlers' `except (ValueError, TypeError)` does NOT catch, so
the request fails with the uncaught exception instead of dropping the
predicate. -/
def applyOptAmountFilter {α : Type} (param : Option (Option Money))
    (f : Money → α → Bool) (l : List α) : Except String (List α) :=
  match param with
  | none => Except.ok l
  | some none => Except.error "decimal.InvalidOperation"
  | some (some v) => Except.ok (l.filter (f v))

/-- Apply a raw-string filter parameter: the code strips the raw value,
skips the filter when the stripped value is empty, and otherwise filters
by the predicate applied to the stripped value. -/
def applyStrFilter {α : Type} (raw : String) (f : String → α → Bool)
    (l : List α) : List α :=
  if strip raw ≠ "" then l.filter (f (strip raw)) else l

/-- `IncomeListView.get_queryset`: base queryset ordered by
`-date, -created_at`, then search, category and date-range filters
(each applied only when supplied and parsable, malformed dates
dropped), then the amount-range stages, whose unparsable values raise
out of the handler. -/
def incomeGetQueryset (s : Store) (p : ListParams) :
    Except String (List Income) :=
  Except.bind
    (applyOptAmountFilter p.amount_min (fun m i => decide (m ≤ i.amount))
      (applyOptFilter p.date_to (fun d i => i.date.leb d)
      (applyOptFilter p.date_from (fun d i => d.leb i.date)
      (applyStrFilter p.category (fun c i => categoryNameOf s i.categoryId == c)
      (applyStrFilter p.search (incomeSearchPred s)
      (List.insertionSort Income.before s.incomes))))))
    (applyOptAmountFilter p.amount_max (fun m i => decide (i.amount ≤ m)))

/-- `ExpenseListView.get_queryset`: like the income one, but the search
matches only `title__icontains` and there is no category filter. -/
def expenseGetQueryset (s : Store) (p : ListParams) :
    Except String (List Expense) :=
  Except.bind
    (applyOptAmountFilter p.amount_min (fun m e => decide (m ≤ e.amount))
      (applyOptFilter p.date_to (fun d e => e.date.leb d)
      (applyOptFilter p.date_from (fun d e => d.leb e.date)
      (applyStrFilter p.search (fun q e => icontains e.title q)
      (List.insertionSort Expense.before s.expenses)))))
    (applyOptAmountFilter p.amount_max (fun m e => decide (e.amount ≤ m)))

theorem sorted_applyOptFilter {α β : Type} {r : α → α → Prop}
    (param : Option (Option β)) (f : β → α → Bool) {l : List α}
    (h : List.Sorted r l) : List.Sorted r (applyOptFilter param f l) := by
  unfold applyOptFilter
  match param with
  | none => exact h
  | some none => exact h
  | some (some v) => exact h.filter _

theorem sorted_applyStrFilter {α : Type} {r : α → α → Prop}
    (raw : String) (f : String → α → Bool) {l : List α}
    (h : List.Sorted r l) : List.Sorted r (applyStrFilter raw f l) := by
  unfold applyStrFilter
  split
  · exact h.filter _
  · exact h

theorem applyOptFilter_none {α β : Type} (f : β → α → Bool) (l : List α) :
    applyOptFilter none f l = l := rfl

theorem applyStrFilter_empty {α : Type} (f : String → α → Bool) (l : List α) :
    applyStrFilter "" f l = l := rfl

theorem applyOptAmountFilter_ok_sublist {α : Type}
    {param : Option (Option Money)} {f : Money → α → Bool} {l lr : List α}
    (h : applyOptAmountFilter param f l = Except.ok lr) :
    List.Sublist lr l := by
  rcases param with _ | (_ | v) <;> simp only [applyOptAmountFilter] at h
  · cases (Except.ok.injEq _ _).mp h
    exact List.Sublist.refl _
  · exact Except.noConfusion h
  · cases (Except.ok.injEq _ _).mp h
    exact List.filter_sublist l

theorem sorted_getD_bind {α : Type} {r : α → α → Prop}
    {x : Except String (List α)} {k : List α → Except String (List α)}
    (hk : ∀ lr, x = Except.ok lr → List.Sorted r ((k lr).toOption.getD [])) :
    List.Sorted r ((Except.bind x k).toOption.getD []) := by
  cases x with
  | error e => exact List.sorted_nil
  | ok lr => exact hk lr rfl

theorem sorted_getD_applyOptAmountFilter {α : Type} {r : α → α → Prop}
    (param : Option (Option Money)) (f : Money → α → Bool) {l : List α}
    (h : List.Sorted r l) :
    List.Sorted r ((applyOptAmountFilter param f l).toOption.getD []) := by
  rcases param with _ | (_ | v)
  · exact h
  · exact List.sorted_nil
  · exact h.filter _

theorem bind_amountFilters_max_malformed {α : Type}
    (amin : Option (Option Money)) (f g : Money → α → Bool) (l : List α) :
    Except.bind (applyOptAmountFilter amin f l)
        (applyOptAmountFilter (some none) g)
      = Except.error "decimal.InvalidOperation" := by
  rcases amin with _ | (_ | v) <;> rfl

/-- C1: for every store, the balance equals total income minus total
expenses computed exactly in decimal (rational) arithmetic, where the
totals are the exact sums of the stored amounts; each total is `0.00`
when the corresponding table is empty; and `calculate_balance` is a pure
function, returning identical output on identical inputs. -/
theorem balance_is_exact_income_minus_expenses (s : Store) :
    calculate_balance (calculate_total_income s) (calculate_total_expenses s)
      = (s.incomes.map Income.amount).sum - (s.expenses.map Expense.amount).sum
  ∧ calculate_total_income { s with incomes := [] } = 0
  ∧ calculate_total_expenses { s with expenses := [] } = 0
  ∧ ∀ inc exp : Money, calculate_balance inc exp = calculate_balance inc exp := by
  refine ⟨?_, rfl, rfl, fun _ _ => rfl⟩
  unfold calculate_balance
  rw [calculate_total_income_eq_sum, calculate_total_expenses_eq_sum]

/-- A store with one income row and one expense row, used to exercise
the list filters on concrete data. -/
def exStoreC7 : Store :=
  ⟨[⟨1, "Salary", 0⟩],
   [⟨1, 1, "Pay", 50, ⟨2024, 2, 1⟩, "", 1, 1⟩],
   [⟨2, "Rent", 20, ⟨2024, 2, 2⟩, 1, 1⟩]⟩

/-- C7 counterexample: at a concrete store, a supplied but unparsable
amount bound is not dropped — `Decimal` raises
`decimal.InvalidOperation`, which `except (ValueError, TypeError)` does
not catch, and the request fails — whereas a supplied but unparsable
date bound is indeed dropped and the query succeeds. -/
theorem malformed_amount_filter_counterexample :
    incomeGetQueryset exStoreC7 { noFilters with amount_min := some none }
      = Except.error "decimal.InvalidOperation"
  ∧ expenseGetQueryset exStoreC7 { noFilters with amount_max := some none }
      = Except.error "decimal.InvalidOperation"
  ∧ incomeGetQueryset exStoreC7 { noFilters with date_from := some none }
      = incomeGetQueryset exStoreC7 noFilters
  ∧ incomeGetQueryset exStoreC7 noFilters = Except.ok exStoreC7.incomes :=
  ⟨rfl, rfl, rfl, rfl⟩

/-- C7 amended: a malformed `date_from`/`date_to` value is silently
dropped — the queryset equals the one with that parameter omitted, the
remaining supplied predicates still applied, and the query succeeds —
but a malformed `amount_min`/`amount_max` value raises
`decimal.InvalidOperation` out of the handler (an `ArithmeticError`
that `except (ValueError, TypeError)` does not catch), so the request
fails instead of dropping the amount predicate. -/
theorem malformed_dates_dropped_amounts_raise (s : Store) (p : ListParams) :
    incomeGetQueryset s { p with date_from := some none }
      = incomeGetQueryset s { p with date_from := none }
  ∧ incomeGetQueryset s { p with date_to := some none }
      = incomeGetQueryset s { p with date_to := none }
  ∧ expenseGetQueryset s { p with date_from := some none }
      = expenseGetQueryset s { p with date_from := none }
  ∧ expenseGetQueryset s { p with date_to := some none }
      = expenseGetQueryset s { p with date_to := none }
  ∧ incomeGetQueryset s { p with amount_min := some none }
      = Except.error "decimal.InvalidOperation"
  ∧ incomeGetQueryset s { p with amount_max := some none }
      = Except.error "decimal.InvalidOperation"
  ∧ expenseGetQueryset s { p with amount_min := some none }
      = Except.error "decimal.InvalidOperation"
  ∧ expenseGetQueryset s { p with amount_max := some none }
      = Except.error "decimal.InvalidOperation" :=
  ⟨rfl, rfl, rfl, rfl, rfl,
   bind_amountFilters_max_malformed p.amount_min _ _ _,
   rfl,
   bind_amountFilters_max_malformed p.amount_min _ _ _⟩

/-- C8: every listing the code produces, filtered or not, is ordered by
date descending with ties broken by `created_at` descending; the
unfiltered listing succeeds and is a permutation of the stored rows, so
it returns exactly the stored ids, with the same multiplicities (no
duplicates, no omissions). -/
theorem listings_sorted_and_complete (s : Store) (p : ListParams) :
    List.Sorted Income.before ((incomeGetQueryset s p).toOption.getD [])
  ∧ List.Sorted Expense.before ((expenseGetQueryset s p).toOption.getD [])
  ∧ incomeGetQueryset s noFilters
      = Except.ok (List.insertionSort Income.before s.incomes)
  ∧ List.Perm ((incomeGetQueryset s noFilters).toOption.getD []) s.incomes
  ∧ List.Perm (((incomeGetQueryset s noFilters).toOption.getD []).map Income.id)
      (s.incomes.map Income.id)
  ∧ expenseGetQueryset s noFilters
      = Except.ok (List.insertionSort Expense.before s.expenses)
  ∧ List.Perm ((expenseGetQueryset s noFilters).toOption.getD []) s.expenses
  ∧ List.Perm (((expenseGetQueryset s noFilters).toOption.getD []).map Expense.id)
      (s.expenses.map Expense.id) := by
  have hq4i : List.Sorted Income.before
      (applyOptFilter p.date_to (fun d i => i.date.leb d)
      (applyOptFilter p.date_from (fun d i => d.leb i.date)
      (applyStrFilter p.category (fun c i => categoryNameOf s i.categoryId == c)
      (applyStrFilter p.search (incomeSearchPred s)
      (List.insertionSort Income.before s.incomes))))) := by
    apply sorted_applyOptFilter
    apply sorted_applyOptFilter
    apply sorted_applyStrFilter
    apply sorted_applyStrFilter
    exact List.sorted_insertionSort _ _
  have hq4e : List.Sorted Expense.before
      (applyOptFilter p.date_to (fun d e => e.date.leb d)
      (applyOptFilter p.date_from (fun d e => d.leb e.date)
      (applyStrFilter p.search (fun q e => icontains e.title q)
      (List.insertionSort Expense.before s.expenses)))) := by
    apply sorted_applyOptFilter
    apply sorted_applyOptFilter
    apply sorted_applyStrFilter
    exact List.sorted_insertionSort _ _
  have hpi : List.Perm ((incomeGetQueryset s noFilters).toOption.getD [])
      s.incomes := List.perm_insertionSort _ _
  have hpe : List.Perm ((expenseGetQueryset s noFilters).toOption.getD [])
      s.expenses := List.perm_insertionSort _ _
  refine ⟨?_, ?_, rfl, hpi, hpi.map _, rfl, hpe, hpe.map _⟩
  · unfold incomeGetQueryset
    apply sorted_getD_bind
    intro lr hlr
    apply sorted_getD_applyOptAmountFilter
    exact List.Pairwise.sublist (applyOptAmountFilter_ok_sublist hlr) hq4i
  · unfold expenseGetQueryset
    apply sorted_getD_bind
    intro lr hlr
    apply sorted_getD_applyOptAmountFilter
    exact List.Pairwise.sublist (applyOptAmountFilter_ok_sublist hlr) hq4e

/-- The dictionary appended for an income row by `DashboardDataAPIView`
(and by the transaction/search endpoints). -/
def incomeToTxn (s : Store) (i : Income) : Txn :=
  ⟨i.id, "income", i.source, categoryNameOf s i.categoryId, i.amount, i.date, i.note⟩

/-- The dictionary appended for an expense row: category shown as the
literal string Expense, empty note. -/
def expenseToTxn (e : Expense) : Txn :=
  ⟨e.id, "expense", e.title, "Expense", e.amount, e.date, ""⟩

/-- `DashboardDataAPIView.get`, `recent_transactions`: the 5 most recent
income rows and the 5 most recent expense rows are fetched separately
(`[:5]` each), converted to entries, merged, sorted by date descending,
and the first 10 are returned. -/
def dashboardRecentTransactions (s : Store) : List Txn :=
  (List.insertionSort Txn.before
    (((List.insertionSort Income.before s.incomes).take 5).map (incomeToTxn s)
      ++ ((List.insertionSort Expense.before s.expenses).take 5).map expenseToTxn)).take 10

/-- Concrete store refuting C2: six income rows (dates Jan 20 down to
Jan 15) and one much older expense row (Jan 1). -/
def exStoreC2 : Store :=
  { categories := [⟨1, "Salary", 0⟩]
    incomes :=
      [⟨1, 1, "a", 10, ⟨2024, 1, 20⟩, "", 1, 1⟩,
       ⟨2, 1, "b", 10, ⟨2024, 1, 19⟩, "", 2, 2⟩,
       ⟨3, 1, "c", 10, ⟨2024, 1, 18⟩, "", 3, 3⟩,
       ⟨4, 1, "d", 10, ⟨2024, 1, 17⟩, "", 4, 4⟩,
       ⟨5, 1, "e", 10, ⟨2024, 1, 16⟩, "", 5, 5⟩,
       ⟨6, 1, "f", 10, ⟨2024, 1, 15⟩, "", 6, 6⟩]
    expenses := [⟨7, "g", 10, ⟨2024, 1, 1⟩, 7, 7⟩] }

/-- C2 counterexample: the union holds 7 transactions (fewer than 10),
yet the endpoint returns only 6 entries: income id 6 (dated 2024-01-15)
is omitted although it is strictly more recent than expense id 7 (dated
2024-01-01), which is included.  So the returned list is not the set of
most recent transactions of the union. -/
theorem dashboard_recent_counterexample :
    exStoreC2.incomes.length + exStoreC2.expenses.length = 7
  ∧ (dashboardRecentTransactions exStoreC2).length = 6
  ∧ ((dashboardRecentTransactions exStoreC2).any fun t => t.id == 6) = false
  ∧ ((dashboardRecentTransactions exStoreC2).any fun t => t.id == 7) = true
  ∧ Date.leb ⟨2024, 1, 15⟩ ⟨2024, 1, 1⟩ = false := by
  decide

/-- C2 amended: `recent_transactions` consists of the up-to-10 most
recent entries of the merge of the 5 most recent income rows with the 5
most recent expense rows (not of the full union), sorted by date
descending; its length is `min 10 (min 5 |incomes| + min 5 |expenses|)`.
-/
theorem dashboard_recent_amended (s : Store) :
    List.Sorted Txn.before (dashboardRecentTransactions s)
  ∧ (dashboardRecentTransactions s).length
      = min 10 (min 5 s.incomes.length + min 5 s.expenses.length)
  ∧ dashboardRecentTransactions s ⊆
      ((List.insertionSort Income.before s.incomes).take 5).map (incomeToTxn s)
        ++ ((List.insertionSort Expense.before s.expenses).take 5).map expenseToTxn := by
  refine ⟨?_, ?_, ?_⟩
  · exact List.Pairwise.sublist (List.take_sublist _ _)
      (List.sorted_insertionSort _ _)
  · unfold dashboardRecentTransactions
    rw [List.length_take, (List.perm_insertionSort Txn.before _).length_eq,
      List.length_append, List.length_map, List.length_map,
      List.length_take, List.length_take,
      (List.perm_insertionSort Income.before _).length_eq,
      (List.perm_insertionSort Expense.before _).length_eq]
  · intro t ht
    exact (List.perm_insertionSort Txn.before _).subset
      (List.take_subset _ _ ht)

/-- The upper bound enforced by the forms on amounts. -/
def maxFormAmount : Money := 99999999.99

/-- `IncomeForm.clean_amount` and `ExpenseForm.clean_amount` (identical):
reject non-positive amounts and amounts above `99999999.99`.  (The
non-numeric case is rejected earlier, by the decimal field itself.) -/
def clean_amount (amount : Money) : Except String Money :=
  if amount ≤ 0 then Except.error "Amount must be greater than zero."
  else if maxFormAmount < amount then
    Except.error "Amount cannot exceed $99,999,999.99."
  else Except.ok amount

/-- `IncomeForm.clean_date` and `ExpenseForm.clean_date` (identical):
reject dates after `today.replace(year=today.year + 1)`. -/
def clean_date (today d : Date) : Except String Date :=
  if d.leb (Date.replaceYearSucc today) then Except.ok d
  else Except.error "Date cannot be more than one year in the future."

/-- A JSON API error: HTTP status code and the message of the error
envelope. -/
structure ApiError where
  code : Nat
  message : String
  deriving DecidableEq, Repr

/-- The outcome of a JSON API handler. -/
abbrev ApiResult (α : Type) := Except ApiError α

/-- The body of `POST /api/income/`.  A field is `none` when it is
absent from the JSON or falsy (the handler treats both as missing).  For
`amount` and `date`, the inner `Option` is the result of parsing the
raw value (`Decimal(str(...))` / `strptime`), `none` meaning the parse
raised.  `note` defaults to the empty string. -/
structure IncomeCreateReq where
  category_id : Option Nat
  source : Option String
  amount : Option (Option Money)
  date : Option (Option Date)
  note : String
  deriving Repr

/-- `IncomeAPIView.post`: required-field checks in order, category
lookup, date parse, amount parse and positivity check (no upper bound),
then creation of the row with both timestamps set to now. -/
def incomeApiPost (s : Store) (now newId : Nat) (r : IncomeCreateReq) :
    ApiResult (Store × Income) :=
  match r.category_id with
  | none => Except.error ⟨400, "Missing required field: category_id"⟩
  | some cid =>
    match r.source with
    | none => Except.error ⟨400, "Missing required field: source"⟩
    | some src =>
      match r.amount with
      | none => Except.error ⟨400, "Missing required field: amount"⟩
      | some amountRaw =>
        match r.date with
        | none => Except.error ⟨400, "Missing required field: date"⟩
        | some dateRaw =>
          match s.categories.find? (fun c => c.id = cid) with
          | none => Except.error ⟨400, "Invalid category ID"⟩
          | some cat =>
            match dateRaw with
            | none => Except.error ⟨400, "Invalid date format. Use YYYY-MM-DD"⟩
            | some d =>
              match amountRaw with
              | none => Except.error ⟨400, "Invalid amount format"⟩
              | some a =>
                if a ≤ 0 then
                  Except.error ⟨400, "Amount must be greater than zero"⟩
                else
                  Except.ok
                    ({ s with incomes := s.incomes
                        ++ [⟨newId, cat.id, strip src, a, d, strip r.note, now, now⟩] },
                     ⟨newId, cat.id, strip src, a, d, strip r.note, now, now⟩)

theorem incomeApiPost_ok (s : Store) (now newId cid : Nat) (src note : String)
    (a : Money) (d : Date) (cat : Category)
    (hcat : s.categories.find? (fun c => c.id = cid) = some cat)
    (hpos : 0 < a) :
    incomeApiPost s now newId ⟨some cid, some src, some (some a), some (some d), note⟩
      = Except.ok
          ({ s with incomes := s.incomes
              ++ [⟨newId, cat.id, strip src, a, d, strip note, now, now⟩] },
           ⟨newId, cat.id, strip src, a, d, strip note, now, now⟩) := by
  simp only [incomeApiPost, hcat]
  rw [if_neg (not_le.mpr hpos)]

/-- A store holding a single category, used to exercise the create API.
-/
def exStoreCat : Store := ⟨[⟨1, "Salary", 0⟩], [], []⟩

/-- A `POST /api/income/` body carrying an amount above the form bound.
-/
def reqBigAmount : IncomeCreateReq :=
  ⟨some 1, some "Bonus", some (some 100000000), some (some ⟨2024, 1, 2⟩), ""⟩

/-- C3 counterexample: `100000000 > 99999999.99` is rejected by the form
rule, yet the JSON API create accepts it and stores the record — the
upper threshold is not applied on the API path. -/
theorem api_amount_upper_bound_counterexample :
    maxFormAmount < 100000000
  ∧ clean_amount 100000000
      = Except.error "Amount cannot exceed $99,999,999.99."
  ∧ ((incomeApiPost exStoreCat 5 1 reqBigAmount).toOption.map
      fun p => (p.1.incomes.length, p.2.amount)) = some (1, 100000000) := by
  refine ⟨by norm_num [maxFormAmount], ?_, ?_⟩
  · norm_num [clean_amount, maxFormAmount]
  · rfl

/-- C3 amended: the form rule rejects an amount exactly when it is
non-positive or exceeds `99999999.99`; the JSON API create applies only
the non-numeric and non-positivity checks, so any positive amount —
including amounts above `99999999.99` — is accepted and the record is
stored. -/
theorem amount_rule_not_shared_with_api (s : Store) (now newId cid : Nat)
    (src note : String) (a : Money) (d : Date) (cat : Category)
    (hcat : s.categories.find? (fun c => c.id = cid) = some cat)
    (hpos : 0 < a) :
    (∀ b : Money, clean_amount b = Except.ok b ↔ 0 < b ∧ b ≤ maxFormAmount)
  ∧ ∃ inc : Income,
      incomeApiPost s now newId ⟨some cid, some src, some (some a), some (some d), note⟩
        = Except.ok ({ s with incomes := s.incomes ++ [inc] }, inc)
      ∧ inc.amount = a := by
  constructor
  · intro b
    unfold clean_amount
    split_ifs with h1 h2
    · constructor
      · intro h; exact absurd h (by simp)
      · rintro ⟨hb, _⟩; exact absurd h1 (not_le.mpr hb)
    · constructor
      · intro h; exact absurd h (by simp)
      · rintro ⟨_, hb2⟩; exact absurd h2 (not_lt.mpr hb2)
    · constructor
      · intro _; exact ⟨not_le.mp h1, not_lt.mp h2⟩
      · intro _; rfl
  · exact ⟨⟨newId, cat.id, strip src, a, d, strip note, now, now⟩,
      incomeApiPost_ok s now newId cid src note a d cat hcat hpos, rfl⟩

/-- Witness for the C3 amended theorem at a concrete store and request.
-/
theorem amount_rule_not_shared_with_api_witness :
    (0 : Money) < 100000000
  ∧ ((∀ b : Money, clean_amount b = Except.ok b ↔ 0 < b ∧ b ≤ maxFormAmount)
      ∧ ∃ inc : Income,
          incomeApiPost exStoreCat 5 1
              ⟨some 1, some "Bonus", some (some 100000000), some (some ⟨2024, 1, 2⟩), ""⟩
            = Except.ok
                ({ exStoreCat with incomes := exStoreCat.incomes ++ [inc] }, inc)
          ∧ inc.amount = 100000000) :=
  ⟨by norm_num,
   amount_rule_not_shared_with_api exStoreCat 5 1 1 "Bonus" "" 100000000
     ⟨2024, 1, 2⟩ ⟨1, "Salary", 0⟩ rfl (by norm_num)⟩

/-- A `POST /api/income/` body carrying a date far beyond one year in
the future. -/
def reqFarDate : IncomeCreateReq :=
  ⟨some 1, some "Bonus", some (some 100), some (some ⟨2030, 1, 1⟩), ""⟩

/-- C4 counterexample: 2030-01-01 is more than one year after
2024-05-10 and is rejected by the form rule, yet the JSON API create
accepts it and stores the record — the one-year bound is not applied on
the API path. -/
theorem api_date_bound_counterexample :
    clean_date ⟨2024, 5, 10⟩ ⟨2030, 1, 1⟩
      = Except.error "Date cannot be more than one year in the future."
  ∧ ((incomeApiPost exStoreCat 5 1 reqFarDate).toOption.map
      fun p => (p.1.incomes.length, p.2.date)) = some (1, ⟨2030, 1, 1⟩) :=
  ⟨rfl, rfl⟩

/-- C4 amended: the form rule accepts a parsed date exactly when it is
at most `today.replace(year=today.year+1)`; the JSON API create checks
only that the date parses, so any parsable date — arbitrarily far in
the future — is accepted and the record is stored. -/
theorem date_rule_not_shared_with_api (today : Date) (s : Store)
    (now newId cid : Nat) (src note : String) (a : Money) (d : Date)
    (cat : Category)
    (hcat : s.categories.find? (fun c => c.id = cid) = some cat)
    (hpos : 0 < a) :
    (∀ d0 : Date, clean_date today d0 = Except.ok d0
        ↔ d0.leb (Date.replaceYearSucc today) = true)
  ∧ ∃ inc : Income,
      incomeApiPost s now newId ⟨some cid, some src, some (some a), some (some d), note⟩
        = Except.ok ({ s with incomes := s.incomes ++ [inc] }, inc)
      ∧ inc.date = d := by
  constructor
  · intro d0
    unfold clean_date
    split_ifs with h
    · simp [h]
    · constructor
      · intro hc; exact absurd hc (by simp)
      · intro hc; exact absurd hc h
  · exact ⟨⟨newId, cat.id, strip src, a, d, strip note, now, now⟩,
      incomeApiPost_ok s now newId cid src note a d cat hcat hpos, rfl⟩

/-- The body of `PUT /api/transactions/` and `DELETE /api/transactions/`:
an id plus optional amount and description updates. -/
structure TxnMutReq where
  id : Option Nat
  amount : Option (Option Money)
  description : Option String
  deriving Repr

/-- Which table the combined-transaction handler resolved the id to. -/
inductive TxnKind
  | income
  | expense
  deriving DecidableEq, Repr

/-- The data part of a combined-transaction mutation response. -/
structure TxnMutResp where
  kind : TxnKind
  recId : Nat
  title : String
  amount : Money
  deriving DecidableEq, Repr

/-- The `amount` handling shared by the update handlers: absent keeps
the current value; unparsable or non-positive is a 400 error. -/
def applyAmount (cur : Money) : Option (Option Money) → ApiResult Money
  | none => Except.ok cur
  | some none => Except.error ⟨400, "Invalid amount format"⟩
  | some (some a) =>
    if a ≤ 0 then Except.error ⟨400, "Amount must be greater than zero"⟩
    else Except.ok a

/-- The `description` handling of `TransactionAPIView.put`: absent keeps
the current value; a blank description is a 400 error; otherwise the
stripped value is stored. -/
def applyDescription (cur : String) : Option String → ApiResult String
  | none => Except.ok cur
  | some t =>
    if strip t = "" then Except.error ⟨400, "Description cannot be empty"⟩
    else Except.ok (strip t)

/-- `TransactionAPIView.put`: probe the income table for the id first,
fall back to the expense table, 404 only when absent from both; apply
the supplied fields to the resolved row and save it.  Modelled from the
spec for the missing `models.py`: saving a row refreshes `updated_at`
(an auto-now timestamp). -/
def txnApiPut (s : Store) (now : Nat) (r : TxnMutReq) :
    ApiResult (Store × TxnMutResp) :=
  match r.id with
  | none => Except.error ⟨400, "Missing required field: id"⟩
  | some tid =>
    match s.incomes.find? (fun i => i.id = tid) with
    | some inc => do
        let a ← applyAmount inc.amount r.amount
        let src ← applyDescription inc.source r.description
        let inc' : Income := { inc with amount := a, source := src, updatedAt := now }
        Except.ok
          ({ s with incomes := s.incomes.map fun x => if x.id = tid then inc' else x },
           ⟨.income, inc'.id, inc'.source, inc'.amount⟩)
    | none =>
      match s.expenses.find? (fun e => e.id = tid) with
      | some e => do
          let a ← applyAmount e.amount r.amount
          let t ← applyDescription e.title r.description
          let e' : Expense := { e with amount := a, title := t, updatedAt := now }
          Except.ok
            ({ s with expenses := s.expenses.map fun x => if x.id = tid then e' else x },
             ⟨.expense, e'.id, e'.title, e'.amount⟩)
      | none => Except.error ⟨404, "Transaction not found"⟩

/-- `TransactionAPIView.delete`: probe income first, then expense,
delete the resolved row, 404 only when absent from both. -/
def txnApiDelete (s : Store) (r : TxnMutReq) :
    ApiResult (Store × TxnMutResp) :=
  match r.id with
  | none => Except.error ⟨400, "Missing required field: id"⟩
  | some tid =>
    match s.incomes.find? (fun i => i.id = tid) with
    | some inc =>
        Except.ok
          ({ s with incomes := s.incomes.filter fun i => i.id != tid },
           ⟨.income, inc.id, inc.source, inc.amount⟩)
    | none =>
      match s.expenses.find? (fun e => e.id = tid) with
      | some e =>
          Except.ok
            ({ s with expenses := s.expenses.filter fun x => x.id != tid },
             ⟨.expense, e.id, e.title, e.amount⟩)
      | none => Except.error ⟨404, "Transaction not found"⟩

theorem applyAmount_error_code {cur : Money} {o : Option (Option Money)}
    {err : ApiError} (h : applyAmount cur o = Except.error err) :
    err.code = 400 := by
  rcases o with _ | (_ | a) <;> simp [applyAmount] at h
  · rw [← h]
  · split at h
    · rw [← (Except.error.injEq _ _).mp h]
    · exact absurd h (by simp)

theorem applyDescription_error_code {cur : String} {o : Option String}
    {err : ApiError} (h : applyDescription cur o = Except.error err) :
    err.code = 400 := by
  rcases o with _ | t <;> simp [applyDescription] at h
  · split at h
    · rw [← (Except.error.injEq _ _).mp h]
    · exact absurd h (by simp)

/-- Witness for the C4 amended theorem at a concrete store, a concrete
today, and a date five-plus years in the future. -/
theorem date_rule_not_shared_with_api_witness :
    (0 : Money) < 100
  ∧ ((∀ d0 : Date, clean_date ⟨2024, 5, 10⟩ d0 = Except.ok d0
        ↔ d0.leb (Date.replaceYearSucc ⟨2024, 5, 10⟩) = true)
      ∧ ∃ inc : Income,
          incomeApiPost exStoreCat 5 1
              ⟨some 1, some "Bonus", some (some 100), some (some ⟨2030, 1, 1⟩), ""⟩
            = Except.ok
                ({ exStoreCat with incomes := exStoreCat.incomes ++ [inc] }, inc)
          ∧ inc.date = ⟨2030, 1, 1⟩) :=
  ⟨by norm_num,
   date_rule_not_shared_with_api ⟨2024, 5, 10⟩ exStoreCat 5 1 1 "Bonus" "" 100
     ⟨2030, 1, 1⟩ ⟨1, "Salary", 0⟩ rfl (by norm_num)⟩

/-- C5: the combined-transaction update and delete handlers return the
404 NotFound error exactly when the id is absent from both the income
and the expense table; when the id resolves in the income table the
delete acts on the income row (leaving expenses untouched) and every
successful update likewise resolves to the income row (reported as an
income record, expense table untouched) even if the same id also exists
in the expense table — income is probed first; and the update resolves
to an expense row only when the id is absent from the income table. -/
theorem txn_api_probes_income_first (s : Store) (now : Nat) (r : TxnMutReq)
    (tid : Nat) (hid : r.id = some tid) :
    (txnApiDelete s r = Except.error ⟨404, "Transaction not found"⟩
       ↔ (∀ i ∈ s.incomes, i.id ≠ tid) ∧ (∀ e ∈ s.expenses, e.id ≠ tid))
  ∧ (txnApiPut s now r = Except.error ⟨404, "Transaction not found"⟩
       ↔ (∀ i ∈ s.incomes, i.id ≠ tid) ∧ (∀ e ∈ s.expenses, e.id ≠ tid))
  ∧ (∀ inc : Income, s.incomes.find? (fun i => i.id = tid) = some inc →
       txnApiDelete s r
         = Except.ok
             ({ s with incomes := s.incomes.filter fun i => i.id != tid },
              ⟨TxnKind.income, inc.id, inc.source, inc.amount⟩))
  ∧ (∀ inc : Income, s.incomes.find? (fun i => i.id = tid) = some inc →
       ∀ s' resp, txnApiPut s now r = Except.ok (s', resp) →
         resp.kind = TxnKind.income ∧ resp.recId = inc.id
           ∧ s'.expenses = s.expenses)
  ∧ (s.incomes.find? (fun i => i.id = tid) = none →
       ∀ s' resp, txnApiPut s now r = Except.ok (s', resp) →
         resp.kind = TxnKind.expense ∧ s'.incomes = s.incomes) := by
  have absent_iff_inc :
      s.incomes.find? (fun i => i.id = tid) = none
        ↔ ∀ i ∈ s.incomes, i.id ≠ tid := by
    rw [List.find?_eq_none]; simp
  have absent_iff_exp :
      s.expenses.find? (fun e => e.id = tid) = none
        ↔ ∀ e ∈ s.expenses, e.id ≠ tid := by
    rw [List.find?_eq_none]; simp
  have found_inc : ∀ inc : Income,
      s.incomes.find? (fun i => i.id = tid) = some inc →
        ¬ ((∀ i ∈ s.incomes, i.id ≠ tid) ∧ (∀ e ∈ s.expenses, e.id ≠ tid)) := by
    intro inc h1 ⟨hi, _⟩
    have hp := List.find?_some h1
    simp only [decide_eq_true_eq] at hp
    exact hi inc (List.mem_of_find?_eq_some h1) hp
  have found_exp : ∀ e : Expense,
      s.expenses.find? (fun e => e.id = tid) = some e →
        ¬ ((∀ i ∈ s.incomes, i.id ≠ tid) ∧ (∀ e ∈ s.expenses, e.id ≠ tid)) := by
    intro e h1 ⟨_, he⟩
    have hp := List.find?_some h1
    simp only [decide_eq_true_eq] at hp
    exact he e (List.mem_of_find?_eq_some h1) hp
  refine ⟨?_, ?_, ?_, ?_, ?_⟩
  · cases h1 : s.incomes.find? (fun i => i.id = tid) with
    | some inc =>
      simp only [txnApiDelete, hid, h1]
      constructor
      · intro hcon; exact absurd hcon (by simp)
      · intro hcon; exact absurd hcon (found_inc inc h1)
    | none =>
      cases h2 : s.expenses.find? (fun e => e.id = tid) with
      | some e =>
        simp only [txnApiDelete, hid, h1, h2]
        constructor
        · intro hcon; exact absurd hcon (by simp)
        · intro hcon; exact absurd hcon (found_exp e h2)
      | none =>
        simp only [txnApiDelete, hid, h1, h2]
        constructor
        · intro _; exact ⟨absent_iff_inc.mp h1, absent_iff_exp.mp h2⟩
        · intro _; trivial
  · cases h1 : s.incomes.find? (fun i => i.id = tid) with
    | some inc =>
      simp only [txnApiPut, hid, h1]
      constructor
      · intro hcon
        cases ha : applyAmount inc.amount r.amount with
        | error e =>
          rw [ha] at hcon
          have he : e = ⟨404, "Transaction not found"⟩ :=
            (Except.error.injEq _ _).mp hcon
          have hc := applyAmount_error_code ha
          rw [he] at hc
          exact absurd hc (by norm_num)
        | ok a =>
          rw [ha] at hcon
          cases hd : applyDescription inc.source r.description with
          | error e =>
            rw [hd] at hcon
            have he : e = ⟨404, "Transaction not found"⟩ :=
              (Except.error.injEq _ _).mp hcon
            have hc := applyDescription_error_code hd
            rw [he] at hc
            exact absurd hc (by norm_num)
          | ok src =>
            rw [hd] at hcon
            exact Except.noConfusion hcon
      · intro hcon; exact absurd hcon (found_inc inc h1)
    | none =>
      cases h2 : s.expenses.find? (fun e => e.id = tid) with
      | some e =>
        simp only [txnApiPut, hid, h1, h2]
        constructor
        · intro hcon
          cases ha : applyAmount e.amount r.amount with
          | error er =>
            rw [ha] at hcon
            have he : er = ⟨404, "Transaction not found"⟩ :=
              (Except.error.injEq _ _).mp hcon
            have hc := applyAmount_error_code ha
            rw [he] at hc
            exact absurd hc (by norm_num)
          | ok a =>
            rw [ha] at hcon
            cases hd : applyDescription e.title r.description with
            | error er =>
              rw [hd] at hcon
              have he : er = ⟨404, "Transaction not found"⟩ :=
                (Except.error.injEq _ _).mp hcon
              have hc := applyDescription_error_code hd
              rw [he] at hc
              exact absurd hc (by norm_num)
            | ok t =>
              rw [hd] at hcon
              exact Except.noConfusion hcon
        · intro hcon; exact absurd hcon (found_exp e h2)
      | none =>
        simp only [txnApiPut, hid, h1, h2]
        constructor
        · intro _; exact ⟨absent_iff_inc.mp h1, absent_iff_exp.mp h2⟩
        · intro _; trivial
  · intro inc h1
    simp only [txnApiDelete, hid, h1]
  · intro inc h1 s' resp hok
    simp only [txnApiPut, hid, h1] at hok
    cases ha : applyAmount inc.amount r.amount with
    | error e => rw [ha] at hok; exact Except.noConfusion hok
    | ok a =>
      rw [ha] at hok
      cases hd : applyDescription inc.source r.description with
      | error e => rw [hd] at hok; exact Except.noConfusion hok
      | ok src =>
        rw [hd] at hok
        obtain ⟨h1', h2'⟩ := (Prod.mk.injEq _ _ _ _).mp
          ((Except.ok.injEq _ _).mp hok)
        rw [← h1', ← h2']
        exact ⟨rfl, rfl, rfl⟩
  · intro h1 s' resp hok
    cases h2 : s.expenses.find? (fun e => e.id = tid) with
    | none =>
      simp only [txnApiPut, hid, h1, h2] at hok
      exact Except.noConfusion hok
    | some e =>
      simp only [txnApiPut, hid, h1, h2] at hok
      cases ha : applyAmount e.amount r.amount with
      | error er => rw [ha] at hok; exact Except.noConfusion hok
      | ok a =>
        rw [ha] at hok
        cases hd : applyDescription e.title r.description with
        | error er => rw [hd] at hok; exact Except.noConfusion hok
        | ok t =>
          rw [hd] at hok
          obtain ⟨h1', h2'⟩ := (Prod.mk.injEq _ _ _ _).mp
            ((Except.ok.injEq _ _).mp hok)
          rw [← h1', ← h2']
          exact ⟨rfl, rfl⟩

/-- A store where id 1 is used by an income row and by an expense row at
the same time. -/
def exStoreBoth : Store :=
  ⟨[⟨1, "Salary", 0⟩],
   [⟨1, 1, "Pay", 50, ⟨2024, 2, 1⟩, "", 1, 1⟩],
   [⟨1, "Rent", 20, ⟨2024, 2, 2⟩, 1, 1⟩]⟩

/-- Witness for C5 at a concrete store where the id exists in both
tables: both the delete and the update resolve to the income row. -/
theorem txn_api_probes_income_first_witness :
    (⟨some 1, none, none⟩ : TxnMutReq).id = some 1
  ∧ ((txnApiDelete exStoreBoth ⟨some 1, none, none⟩
        = Except.error ⟨404, "Transaction not found"⟩
       ↔ (∀ i ∈ exStoreBoth.incomes, i.id ≠ 1)
         ∧ (∀ e ∈ exStoreBoth.expenses, e.id ≠ 1))
    ∧ (txnApiPut exStoreBoth 9 ⟨some 1, none, none⟩
        = Except.error ⟨404, "Transaction not found"⟩
       ↔ (∀ i ∈ exStoreBoth.incomes, i.id ≠ 1)
         ∧ (∀ e ∈ exStoreBoth.expenses, e.id ≠ 1))
    ∧ (∀ inc : Income,
        exStoreBoth.incomes.find? (fun i => i.id = 1) = some inc →
        txnApiDelete exStoreBoth ⟨some 1, none, none⟩
          = Except.ok
              ({ exStoreBoth with
                  incomes := exStoreBoth.incomes.filter fun i => i.id != 1 },
               ⟨TxnKind.income, inc.id, inc.source, inc.amount⟩))
    ∧ (∀ inc : Income,
        exStoreBoth.incomes.find? (fun i => i.id = 1) = some inc →
        ∀ s' resp, txnApiPut exStoreBoth 9 ⟨some 1, none, none⟩
            = Except.ok (s', resp) →
          resp.kind = TxnKind.income ∧ resp.recId = inc.id
            ∧ s'.expenses = exStoreBoth.expenses)
    ∧ (exStoreBoth.incomes.find? (fun i => i.id = 1) = none →
        ∀ s' resp, txnApiPut exStoreBoth 9 ⟨some 1, none, none⟩
            = Except.ok (s', resp) →
          resp.kind = TxnKind.expense ∧ s'.incomes = exStoreBoth.incomes)) :=
  ⟨rfl, txn_api_probes_income_first exStoreBoth 9 ⟨some 1, none, none⟩ 1 rfl⟩

/-- The body of `PUT /api/income/<id>/`: every field optional; for
`amount` and `date` the inner `Option` is the parse result of the raw
value. -/
structure IncomeUpdateReq where
  category_id : Option Nat
  source : Option String
  amount : Option (Option Money)
  date : Option (Option Date)
  note : Option String
  deriving Repr

/-- The body of `PUT /api/expenses/<id>/`. -/
structure ExpenseUpdateReq where
  title : Option String
  amount : Option (Option Money)
  date : Option (Option Date)
  deriving Repr

/-- `category_id` handling of `IncomeAPIView.put`: absent keeps the
current FK; a supplied id must resolve to an existing category. -/
def applyCategory (s : Store) (cur : Nat) : Option Nat → ApiResult Nat
  | none => Except.ok cur
  | some c =>
    match s.categories.find? (fun k => k.id = c) with
    | none => Except.error ⟨400, "Invalid category ID"⟩
    | some cat => Except.ok cat.id

/-- `source` handling of `IncomeAPIView.put`: absent keeps the current
value; blank is a 400 error; otherwise the stripped value. -/
def applySource (cur : String) : Option String → ApiResult String
  | none => Except.ok cur
  | some t =>
    if strip t = "" then Except.error ⟨400, "Source cannot be empty"⟩
    else Except.ok (strip t)

/-- `title` handling of `ExpenseAPIView.put`. -/
def applyTitle (cur : String) : Option String → ApiResult String
  | none => Except.ok cur
  | some t =>
    if strip t = "" then Except.error ⟨400, "Title cannot be empty"⟩
    else Except.ok (strip t)

/-- `date` handling of the update handlers: absent keeps the current
value; unparsable is a 400 error. -/
def applyDate (cur : Date) : Option (Option Date) → ApiResult Date
  | none => Except.ok cur
  | some none => Except.error ⟨400, "Invalid date format. Use YYYY-MM-DD"⟩
  | some (some d) => Except.ok d

/-- `note` handling of `IncomeAPIView.put`: absent keeps the current
value, otherwise the stripped value is stored (no validation). -/
def applyNote (cur : String) : Option String → String
  | none => cur
  | some n => strip n

/-- `IncomeAPIView.put`: look the row up by pk (404 when absent), apply
each supplied field in source order (category, source, amount, date,
note), save.  Modelled from the spec for the missing `models.py`:
saving refreshes `updated_at` (auto-now timestamp). -/
def incomeApiPut (s : Store) (now pk : Nat) (r : IncomeUpdateReq) :
    ApiResult (Store × Income) :=
  match s.incomes.find? (fun i => i.id = pk) with
  | none => Except.error ⟨404, "Income transaction not found"⟩
  | some inc => do
    let cid ← applyCategory s inc.categoryId r.category_id
    let src ← applySource inc.source r.source
    let a ← applyAmount inc.amount r.amount
    let d ← applyDate inc.date r.date
    let inc' : Income :=
      { inc with categoryId := cid, source := src, amount := a, date := d,
                 note := applyNote inc.note r.note, updatedAt := now }
    Except.ok
      ({ s with incomes := s.incomes.map fun x => if x.id = pk then inc' else x },
       inc')

/-- `ExpenseAPIView.put`: analogous (title, amount, date). -/
def expenseApiPut (s : Store) (now pk : Nat) (r : ExpenseUpdateReq) :
    ApiResult (Store × Expense) :=
  match s.expenses.find? (fun e => e.id = pk) with
  | none => Except.error ⟨404, "Expense transaction not found"⟩
  | some exp => do
    let t ← applyTitle exp.title r.title
    let a ← applyAmount exp.amount r.amount
    let d ← applyDate exp.date r.date
    let exp' : Expense :=
      { exp with title := t, amount := a, date := d, updatedAt := now }
    Except.ok
      ({ s with expenses := s.expenses.map fun x => if x.id = pk then exp' else x },
       exp')

theorem applyAmount_some_ok {cur a v : Money}
    (h : applyAmount cur (some (some v)) = Except.ok a) : a = v := by
  simp only [applyAmount] at h
  split at h
  · exact Except.noConfusion h
  · exact ((Except.ok.injEq _ _).mp h).symm

theorem applyCategory_some_ok {s : Store} {cur cid c : Nat}
    (h : applyCategory s cur (some c) = Except.ok cid) : cid = c := by
  cases hf : s.categories.find? (fun k => k.id = c) with
  | none =>
    simp only [applyCategory, hf] at h
    exact Except.noConfusion h
  | some cat =>
    simp only [applyCategory, hf] at h
    have hp := List.find?_some hf
    simp only [decide_eq_true_eq] at hp
    have hco := (Except.ok.injEq cat.id cid).mp h
    rw [← hco]
    exact hp

theorem applySource_some_ok {cur t src : String}
    (h : applySource cur (some t) = Except.ok src) : src = strip t := by
  simp only [applySource] at h
  split at h
  · exact Except.noConfusion h
  · exact ((Except.ok.injEq _ _).mp h).symm

theorem applyTitle_some_ok {cur t ti : String}
    (h : applyTitle cur (some t) = Except.ok ti) : ti = strip t := by
  simp only [applyTitle] at h
  split at h
  · exact Except.noConfusion h
  · exact ((Except.ok.injEq _ _).mp h).symm

theorem applyDate_some_ok {cur d v : Date}
    (h : applyDate cur (some (some v)) = Except.ok d) : d = v :=
  ((Except.ok.injEq _ _).mp h).symm

theorem incomeApiPut_ok_inv {s : Store} {now pk : Nat} {r : IncomeUpdateReq}
    {s' : Store} {inc' inc : Income}
    (hf : s.incomes.find? (fun i => i.id = pk) = some inc)
    (hok : incomeApiPut s now pk r = Except.ok (s', inc')) :
    ∃ cid src a d,
      applyCategory s inc.categoryId r.category_id = Except.ok cid
      ∧ applySource inc.source r.source = Except.ok src
      ∧ applyAmount inc.amount r.amount = Except.ok a
      ∧ applyDate inc.date r.date = Except.ok d
      ∧ inc' = { inc with
          categoryId := cid, source := src, amount := a, date := d,
          note := applyNote inc.note r.note, updatedAt := now }
      ∧ s' = { s with
          incomes := s.incomes.map (fun x => if x.id = pk then inc' else x) } := by
  simp only [incomeApiPut, hf] at hok
  cases hc : applyCategory s inc.categoryId r.category_id with
  | error e => rw [hc] at hok; exact Except.noConfusion hok
  | ok cid =>
    rw [hc] at hok
    cases hs : applySource inc.source r.source with
    | error e => rw [hs] at hok; exact Except.noConfusion hok
    | ok src =>
      rw [hs] at hok
      cases ha : applyAmount inc.amount r.amount with
      | error e => rw [ha] at hok; exact Except.noConfusion hok
      | ok a =>
        rw [ha] at hok
        cases hd : applyDate inc.date r.date with
        | error e => rw [hd] at hok; exact Except.noConfusion hok
        | ok d =>
          rw [hd] at hok
          obtain ⟨h1, h2⟩ := (Prod.mk.injEq _ _ _ _).mp
            ((Except.ok.injEq _ _).mp hok)
          exact ⟨cid, src, a, d, rfl, rfl, rfl, rfl, h2.symm, by rw [← h1, ← h2]⟩

theorem expenseApiPut_ok_inv {s : Store} {now pk : Nat} {r : ExpenseUpdateReq}
    {s' : Store} {exp' exp : Expense}
    (hf : s.expenses.find? (fun e => e.id = pk) = some exp)
    (hok : expenseApiPut s now pk r = Except.ok (s', exp')) :
    ∃ t a d,
      applyTitle exp.title r.title = Except.ok t
      ∧ applyAmount exp.amount r.amount = Except.ok a
      ∧ applyDate exp.date r.date = Except.ok d
      ∧ exp' = { exp with
          title := t, amount := a, date := d, updatedAt := now }
      ∧ s' = { s with
          expenses := s.expenses.map (fun x => if x.id = pk then exp' else x) } := by
  simp only [expenseApiPut, hf] at hok
  cases ht : applyTitle exp.title r.title with
  | error e => rw [ht] at hok; exact Except.noConfusion hok
  | ok t =>
    rw [ht] at hok
    cases ha : applyAmount exp.amount r.amount with
    | error e => rw [ha] at hok; exact Except.noConfusion hok
    | ok a =>
      rw [ha] at hok
      cases hd : applyDate exp.date r.date with
      | error e => rw [hd] at hok; exact Except.noConfusion hok
      | ok d =>
        rw [hd] at hok
        obtain ⟨h1, h2⟩ := (Prod.mk.injEq _ _ _ _).mp
          ((Except.ok.injEq _ _).mp hok)
        exact ⟨t, a, d, rfl, rfl, rfl, h2.symm, by rw [← h1, ← h2]⟩

theorem applyCategory_none_ok {s : Store} {cur cid : Nat}
    (h : applyCategory s cur none = Except.ok cid) : cid = cur :=
  ((Except.ok.injEq _ _).mp h).symm

theorem applySource_none_ok {cur src : String}
    (h : applySource cur none = Except.ok src) : src = cur :=
  ((Except.ok.injEq _ _).mp h).symm

theorem applyTitle_none_ok {cur t : String}
    (h : applyTitle cur none = Except.ok t) : t = cur :=
  ((Except.ok.injEq _ _).mp h).symm

theorem applyAmount_none_ok {cur a : Money}
    (h : applyAmount cur none = Except.ok a) : a = cur :=
  ((Except.ok.injEq _ _).mp h).symm

theorem applyDate_none_ok {cur d : Date}
    (h : applyDate cur none = Except.ok d) : d = cur :=
  ((Except.ok.injEq _ _).mp h).symm

/-- C6: a successful API partial update (income or expense) sets exactly
the supplied fields (source/title and note stripped, a supplied category
id stored as given), keeps every unsupplied field at its prior value,
preserves `id` and `created_at`, sets `updated_at` to the save time (so
it moves strictly forward when the save time is later), and leaves the
other tables and the unrelated rows of the same table untouched. -/
theorem api_partial_update_frame (s : Store) (now pk pke : Nat)
    (r : IncomeUpdateReq) (re : ExpenseUpdateReq)
    (inc inc' : Income) (exp exp' : Expense) (s1 s2 : Store)
    (hfi : s.incomes.find? (fun i => i.id = pk) = some inc)
    (hok : incomeApiPut s now pk r = Except.ok (s1, inc'))
    (hfe : s.expenses.find? (fun e => e.id = pke) = some exp)
    (hoke : expenseApiPut s now pke re = Except.ok (s2, exp')) :
    (inc'.id = inc.id ∧ inc'.createdAt = inc.createdAt ∧ inc'.updatedAt = now
      ∧ (inc.updatedAt < now → inc.updatedAt < inc'.updatedAt)
      ∧ (r.category_id = none → inc'.categoryId = inc.categoryId)
      ∧ (∀ c, r.category_id = some c → inc'.categoryId = c)
      ∧ (r.source = none → inc'.source = inc.source)
      ∧ (∀ t, r.source = some t → inc'.source = strip t)
      ∧ (r.amount = none → inc'.amount = inc.amount)
      ∧ (∀ a, r.amount = some (some a) → inc'.amount = a)
      ∧ (r.date = none → inc'.date = inc.date)
      ∧ (∀ d, r.date = some (some d) → inc'.date = d)
      ∧ (r.note = none → inc'.note = inc.note)
      ∧ (∀ n, r.note = some n → inc'.note = strip n)
      ∧ s1.expenses = s.expenses ∧ s1.categories = s.categories
      ∧ (∀ x ∈ s.incomes, x.id ≠ pk → x ∈ s1.incomes))
  ∧ (exp'.id = exp.id ∧ exp'.createdAt = exp.createdAt ∧ exp'.updatedAt = now
      ∧ (exp.updatedAt < now → exp.updatedAt < exp'.updatedAt)
      ∧ (re.title = none → exp'.title = exp.title)
      ∧ (∀ t, re.title = some t → exp'.title = strip t)
      ∧ (re.amount = none → exp'.amount = exp.amount)
      ∧ (∀ a, re.amount = some (some a) → exp'.amount = a)
      ∧ (re.date = none → exp'.date = exp.date)
      ∧ (∀ d, re.date = some (some d) → exp'.date = d)
      ∧ s2.incomes = s.incomes ∧ s2.categories = s.categories
      ∧ (∀ x ∈ s.expenses, x.id ≠ pke → x ∈ s2.expenses)) := by
  obtain ⟨cid, src, a, d, hc, hs, ha, hd, hinc, hst⟩ :=
    incomeApiPut_ok_inv hfi hok
  obtain ⟨te, ae, de, hte, hae, hde, hexp, hst2⟩ :=
    expenseApiPut_ok_inv hfe hoke
  subst hinc hexp hst hst2
  constructor
  · refine ⟨rfl, rfl, rfl, fun h => h, ?_, ?_, ?_, ?_, ?_, ?_, ?_, ?_, ?_, ?_,
      rfl, rfl, ?_⟩
    · intro h; rw [h] at hc; exact applyCategory_none_ok hc
    · intro c h; rw [h] at hc; exact applyCategory_some_ok hc
    · intro h; rw [h] at hs; exact applySource_none_ok hs
    · intro t h; rw [h] at hs; exact applySource_some_ok hs
    · intro h; rw [h] at ha; exact applyAmount_none_ok ha
    · intro b h; rw [h] at ha; exact applyAmount_some_ok ha
    · intro h; rw [h] at hd; exact applyDate_none_ok hd
    · intro d0 h; rw [h] at hd; exact applyDate_some_ok hd
    · intro h; show applyNote inc.note r.note = inc.note; rw [h]; rfl
    · intro n h; show applyNote inc.note r.note = strip n; rw [h]; rfl
    · intro x hx hne
      exact List.mem_map.mpr ⟨x, hx, if_neg hne⟩
  · refine ⟨rfl, rfl, rfl, fun hlt => hlt, ?_, ?_, ?_, ?_, ?_, ?_, rfl, rfl, ?_⟩
    · intro h; rw [h] at hte; exact applyTitle_none_ok hte
    · intro t h; rw [h] at hte; exact applyTitle_some_ok hte
    · intro h; rw [h] at hae; exact applyAmount_none_ok hae
    · intro b h; rw [h] at hae; exact applyAmount_some_ok hae
    · intro h; rw [h] at hde; exact applyDate_none_ok hde
    · intro d0 h; rw [h] at hde; exact applyDate_some_ok hde
    · intro x hx hne
      exact List.mem_map.mpr ⟨x, hx, if_neg hne⟩

/-- A concrete income row for exercising the partial update. -/
def incC6 : Income := ⟨1, 1, "Pay", 50, ⟨2024, 2, 1⟩, "n", 1, 1⟩

/-- A concrete expense row for exercising the partial update. -/
def expC6 : Expense := ⟨2, "Rent", 20, ⟨2024, 2, 2⟩, 1, 1⟩

/-- A store holding the two rows above. -/
def exStoreC6 : Store := ⟨[⟨1, "Salary", 0⟩], [incC6], [expC6]⟩

/-- An income update supplying only the amount. -/
def reqC6 : IncomeUpdateReq := ⟨none, none, some (some 75), none, none⟩

/-- An expense update supplying only the title (with whitespace). -/
def reqC6e : ExpenseUpdateReq := ⟨some " Food ", none, none⟩

/-- The income row after the update. -/
def incC6res : Income := ⟨1, 1, "Pay", 75, ⟨2024, 2, 1⟩, "n", 1, 9⟩

/-- The expense row after the update. -/
def expC6res : Expense := ⟨2, "Food", 20, ⟨2024, 2, 2⟩, 1, 9⟩

/-- Witness for C6 at the concrete store: both updates succeed and the
frame properties apply to the results. -/
theorem api_partial_update_frame_witness :
    exStoreC6.incomes.find? (fun i => i.id = 1) = some incC6
  ∧ incomeApiPut exStoreC6 9 1 reqC6
      = Except.ok (⟨[⟨1, "Salary", 0⟩], [incC6res], [expC6]⟩, incC6res)
  ∧ exStoreC6.expenses.find? (fun e => e.id = 2) = some expC6
  ∧ expenseApiPut exStoreC6 9 2 reqC6e
      = Except.ok (⟨[⟨1, "Salary", 0⟩], [incC6], [expC6res]⟩, expC6res)
  ∧ incC6res.id = incC6.id
  ∧ expC6res.id = expC6.id :=
  ⟨rfl, rfl, rfl, rfl,
   (api_partial_update_frame exStoreC6 9 1 2 reqC6 reqC6e incC6 incC6res
     expC6 expC6res ⟨[⟨1, "Salary", 0⟩], [incC6res], [expC6]⟩
     ⟨[⟨1, "Salary", 0⟩], [incC6], [expC6res]⟩ rfl rfl rfl rfl).1.1,
   (api_partial_update_frame exStoreC6 9 1 2 reqC6 reqC6e incC6 incC6res
     expC6 expC6res ⟨[⟨1, "Salary", 0⟩], [incC6res], [expC6]⟩
     ⟨[⟨1, "Salary", 0⟩], [incC6], [expC6res]⟩ rfl rfl rfl rfl).2.1⟩

/-- The body of `POST /api/transactions/`.  The handler reads only
`type`, `amount`, `description` and `note`; `category_id` and `date`
may be present in the JSON body but are never read. -/
structure TxnCreateReq where
  type : Option String
  amount : Option (Option Money)
  description : Option String
  note : String
  category_id : Option Nat
  date : Option Date
  deriving Repr

/-- `Category.objects.get_or_create(name=...)`: return the category of
that name, creating it first when absent. -/
def getOrCreateCategory (s : Store) (name : String) (newCid now : Nat) :
    Store × Category :=
  match s.categories.find? (fun c => c.name = name) with
  | some c => (s, c)
  | none =>
    ({ s with categories := s.categories ++ [⟨newCid, name, now⟩] },
     ⟨newCid, name, now⟩)

/-- The data part of the generic-create response. -/
structure TxnCreateResp where
  recId : Nat
  type : String
  title : String
  amount : Money
  date : Date
  createdAt : Nat
  deriving DecidableEq, Repr

/-- `TransactionAPIView.post`: dispatch on `type`; for income,
get-or-create the `Salary` category (before amount validation, as in the
source), validate the amount (positivity only), then create the row with
`date = datetime.now().date()`.  The caller-supplied `category_id` and
`date` fields are never consulted. -/
def txnApiPost (s : Store) (today : Date) (now newId newCid : Nat)
    (r : TxnCreateReq) : ApiResult (Store × TxnCreateResp) :=
  match r.type with
  | some "income" =>
    match r.amount with
    | none => Except.error ⟨400, "Missing required field: amount"⟩
    | some araw =>
      match r.description with
      | none => Except.error ⟨400, "Missing required field: description"⟩
      | some dsc =>
        let sc := getOrCreateCategory s "Salary" newCid now
        match araw with
        | none => Except.error ⟨400, "Invalid amount format"⟩
        | some a =>
          if a ≤ 0 then Except.error ⟨400, "Amount must be greater than zero"⟩
          else
            Except.ok
              ({ sc.1 with incomes := sc.1.incomes
                  ++ [⟨newId, sc.2.id, strip dsc, a, today, strip r.note, now, now⟩] },
               ⟨newId, "income", strip dsc, a, today, now⟩)
  | some "expense" =>
    match r.amount with
    | none => Except.error ⟨400, "Missing required field: amount"⟩
    | some araw =>
      match r.description with
      | none => Except.error ⟨400, "Missing required field: description"⟩
      | some dsc =>
        match araw with
        | none => Except.error ⟨400, "Invalid amount format"⟩
        | some a =>
          if a ≤ 0 then Except.error ⟨400, "Amount must be greater than zero"⟩
          else
            Except.ok
              ({ s with expenses := s.expenses
                  ++ [⟨newId, strip dsc, a, today, now, now⟩] },
               ⟨newId, "expense", strip dsc, a, today, now⟩)
  | _ =>
    Except.error
      ⟨400, "Invalid or missing transaction type. Must be \"income\" or \"expense\""⟩

/-- C9: a valid income create through the generic transaction endpoint
always stores the row with the category named `Salary` (resolved by
get-or-create, so it exists in the resulting store) and with today as
the date, and the outcome does not depend on any category id or date the
caller supplies in the body. -/
theorem generic_post_income_defaults (s : Store) (today : Date)
    (now newId newCid : Nat) (r : TxnCreateReq) (a : Money) (dsc : String)
    (htype : r.type = some "income") (hamt : r.amount = some (some a))
    (hdsc : r.description = some dsc) (hpos : 0 < a) :
    (∃ s' resp inc,
      txnApiPost s today now newId newCid r = Except.ok (s', resp)
      ∧ s'.incomes = (getOrCreateCategory s "Salary" newCid now).1.incomes ++ [inc]
      ∧ inc.date = today
      ∧ ∃ cat ∈ s'.categories, cat.id = inc.categoryId ∧ cat.name = "Salary")
  ∧ ∀ cid0 d0,
      txnApiPost s today now newId newCid { r with category_id := cid0, date := d0 }
        = txnApiPost s today now newId newCid r := by
  constructor
  · cases hg : s.categories.find? (fun c => c.name = "Salary") with
    | some c =>
      have hname := List.find?_some hg
      simp only [decide_eq_true_eq] at hname
      have hmem := List.mem_of_find?_eq_some hg
      refine ⟨{ s with incomes := s.incomes
            ++ [⟨newId, c.id, strip dsc, a, today, strip r.note, now, now⟩] },
        ⟨newId, "income", strip dsc, a, today, now⟩,
        ⟨newId, c.id, strip dsc, a, today, strip r.note, now, now⟩,
        ?_, ?_, rfl, ⟨c, hmem, rfl, hname⟩⟩
      · simp only [txnApiPost, htype, hamt, hdsc, getOrCreateCategory, hg]
        rw [if_neg (not_le.mpr hpos)]
      · simp only [getOrCreateCategory, hg]
    | none =>
      refine ⟨{ s with
            categories := s.categories ++ [⟨newCid, "Salary", now⟩],
            incomes := s.incomes
              ++ [⟨newId, newCid, strip dsc, a, today, strip r.note, now, now⟩] },
        ⟨newId, "income", strip dsc, a, today, now⟩,
        ⟨newId, newCid, strip dsc, a, today, strip r.note, now, now⟩,
        ?_, ?_, rfl, ⟨⟨newCid, "Salary", now⟩, ?_, rfl, rfl⟩⟩
      · simp only [txnApiPost, htype, hamt, hdsc, getOrCreateCategory, hg]
        rw [if_neg (not_le.mpr hpos)]
      · simp only [getOrCreateCategory, hg]
      · exact List.mem_append_right _ (List.mem_singleton.mpr rfl)
  · intro cid0 d0
    rfl

/-- A generic-create body that also carries a category id and a date,
both of which the handler must ignore. -/
def reqC9 : TxnCreateReq :=
  ⟨some "income", some (some 42), some "Side gig", "", some 99, some ⟨1999, 1, 1⟩⟩

/-- Witness for C9 at a concrete store and request. -/
theorem generic_post_income_defaults_witness :
    reqC9.type = some "income"
  ∧ reqC9.amount = some (some 42)
  ∧ reqC9.description = some "Side gig"
  ∧ (0 : Money) < 42
  ∧ ((∃ s' resp inc,
        txnApiPost exStoreCat ⟨2024, 6, 1⟩ 3 1 2 reqC9 = Except.ok (s', resp)
        ∧ s'.incomes
            = (getOrCreateCategory exStoreCat "Salary" 2 3).1.incomes ++ [inc]
        ∧ inc.date = ⟨2024, 6, 1⟩
        ∧ ∃ cat ∈ s'.categories, cat.id = inc.categoryId ∧ cat.name = "Salary")
      ∧ ∀ cid0 d0,
          txnApiPost exStoreCat ⟨2024, 6, 1⟩ 3 1 2
              { reqC9 with category_id := cid0, date := d0 }
            = txnApiPost exStoreCat ⟨2024, 6, 1⟩ 3 1 2 reqC9) :=
  ⟨rfl, rfl, rfl, by norm_num,
   generic_post_income_defaults exStoreCat ⟨2024, 6, 1⟩ 3 1 2 reqC9 42
     "Side gig" rfl rfl rfl (by norm_num)⟩

instance : IsTotal Income Income.dateBefore :=
  ⟨fun a b => (Date.leb_total b.date a.date).imp id id⟩

instance : IsTrans Income Income.dateBefore :=
  ⟨fun _ _ _ h1 h2 => Date.leb_trans h2 h1⟩

instance : IsTotal Expense Expense.dateBefore :=
  ⟨fun a b => (Date.leb_total b.date a.date).imp id id⟩

instance : IsTrans Expense Expense.dateBefore :=
  ⟨fun _ _ _ h1 h2 => Date.leb_trans h2 h1⟩

/-- The search predicate for expense rows (`title__icontains` only). -/
def expenseSearchPred (q : String) (e : Expense) : Bool := icontains e.title q

/-- The income side of `SearchAPIView.get`: filter, order by `-date`,
keep the first `limit`. -/
def incomeSearchTake (s : Store) (q : String) (limit : Nat) : List Income :=
  (List.insertionSort Income.dateBefore
    (s.incomes.filter (incomeSearchPred s q))).take limit

/-- The expense side of `SearchAPIView.get`. -/
def expenseSearchTake (s : Store) (q : String) (limit : Nat) : List Expense :=
  (List.insertionSort Expense.dateBefore
    (s.expenses.filter (expenseSearchPred q))).take limit

/-- The search response: the `results` array and the `count` field. -/
structure SearchResp where
  results : List Txn
  count : Nat
  deriving DecidableEq, Repr

/-- The merged pre-truncation result list for a `type=all` search. -/
def searchMergedAll (s : Store) (q : String) (limit : Nat) : List Txn :=
  (incomeSearchTake s q limit).map (incomeToTxn s)
    ++ (expenseSearchTake s q limit).map expenseToTxn

/-- `SearchAPIView.get`: strip the query (empty query short-circuits),
collect per-kind matches each cut to `limit`, merge, sort by date
descending, return the first `limit` entries while `count` reports the
length of the merged list before truncation. -/
def searchApi (s : Store) (q0 ttype : String) (limit : Nat) : SearchResp :=
  if strip q0 = "" then ⟨[], 0⟩
  else
    let incRes := if ttype = "all" ∨ ttype = "income"
      then (incomeSearchTake s (strip q0) limit).map (incomeToTxn s) else []
    let expRes := if ttype = "all" ∨ ttype = "expense"
      then (expenseSearchTake s (strip q0) limit).map expenseToTxn else []
    ⟨(List.insertionSort Txn.before (incRes ++ expRes)).take limit,
     (incRes ++ expRes).length⟩

theorem searchApi_all (s : Store) (q : String) (limit : Nat)
    (hq : strip q ≠ "") :
    searchApi s q "all" limit
      = ⟨(List.insertionSort Txn.before
            (searchMergedAll s (strip q) limit)).take limit,
         (searchMergedAll s (strip q) limit).length⟩ := by
  simp only [searchApi, if_neg hq, true_or, if_true]
  rfl

theorem sorted_take_no_strictly_later (merged : List Txn) (limit : Nat)
    (t : Txn)
    (ht : t ∈ (List.insertionSort Txn.before merged).take limit)
    (hcount : limit ≤ merged.countP (fun x => ! x.date.leb t.date)) :
    False := by
  have hperm := List.perm_insertionSort Txn.before merged
  have hsorted := List.sorted_insertionSort Txn.before merged
  have hcS : (List.insertionSort Txn.before merged).countP
        (fun x => ! x.date.leb t.date)
      = merged.countP (fun x => ! x.date.leb t.date) :=
    hperm.countP_eq _
  have hsplit : (List.insertionSort Txn.before merged).take limit
      ++ (List.insertionSort Txn.before merged).drop limit
      = List.insertionSort Txn.before merged :=
    List.take_append_drop limit _
  have hpw : List.Pairwise Txn.before
      ((List.insertionSort Txn.before merged).take limit
        ++ (List.insertionSort Txn.before merged).drop limit) := by
    rw [hsplit]; exact hsorted
  obtain ⟨-, -, hcross⟩ := List.pairwise_append.mp hpw
  have hdrop0 : ((List.insertionSort Txn.before merged).drop limit).countP
      (fun x => ! x.date.leb t.date) = 0 := by
    rw [List.countP_eq_zero]
    intro x hx
    have hbef : Txn.before t x := hcross t ht x hx
    simp only [Bool.not_eq_true', Bool.not_eq_false]
    exact hbef
  have htake : ((List.insertionSort Txn.before merged).take limit).countP
      (fun x => ! x.date.leb t.date)
      < ((List.insertionSort Txn.before merged).take limit).length := by
    rcases Nat.lt_or_ge
      (((List.insertionSort Txn.before merged).take limit).countP
        (fun x => ! x.date.leb t.date))
      ((List.insertionSort Txn.before merged).take limit).length with h | h
    · exact h
    · exfalso
      have hle : ((List.insertionSort Txn.before merged).take limit).countP
          (fun x => ! x.date.leb t.date)
          ≤ ((List.insertionSort Txn.before merged).take limit).length :=
        List.countP_le_length _
      have hall := List.countP_eq_length.mp (le_antisymm hle h) t ht
      rw [Date.leb_refl] at hall
      exact absurd hall (by simp)
  have hlen : ((List.insertionSort Txn.before merged).take limit).length
      ≤ limit := by
    rw [List.length_take]; exact Nat.min_le_left _ _
  have hsum : (List.insertionSort Txn.before merged).countP
      (fun x => ! x.date.leb t.date)
      = ((List.insertionSort Txn.before merged).take limit).countP
          (fun x => ! x.date.leb t.date)
        + ((List.insertionSort Txn.before merged).drop limit).countP
          (fun x => ! x.date.leb t.date) := by
    conv_lhs => rw [← hsplit]
    exact List.countP_append _ _ _
  omega

theorem search_no_omission_income (s : Store) (q : String) (limit : Nat)
    (hq : strip q ≠ "") (i : Income) (t : Txn)
    (hi : i ∈ (List.insertionSort Income.dateBefore
        (s.incomes.filter (incomeSearchPred s (strip q)))).drop limit)
    (ht : t ∈ (searchApi s q "all" limit).results) :
    Date.leb i.date t.date = true := by
  by_contra hcon
  rw [searchApi_all s q limit hq] at ht
  have hlen : limit < (List.insertionSort Income.dateBefore
      (s.incomes.filter (incomeSearchPred s (strip q)))).length := by
    by_contra hle
    push_neg at hle
    rw [List.drop_eq_nil_of_le hle] at hi
    exact absurd hi (List.not_mem_nil i)
  have hLs : List.Pairwise Income.dateBefore
      ((List.insertionSort Income.dateBefore
          (s.incomes.filter (incomeSearchPred s (strip q)))).take limit
        ++ (List.insertionSort Income.dateBefore
          (s.incomes.filter (incomeSearchPred s (strip q)))).drop limit) := by
    rw [List.take_append_drop]
    exact List.sorted_insertionSort _ _
  obtain ⟨-, -, hcross⟩ := List.pairwise_append.mp hLs
  have hall : ∀ y ∈ (List.insertionSort Income.dateBefore
      (s.incomes.filter (incomeSearchPred s (strip q)))).take limit,
      ((fun x : Txn => ! x.date.leb t.date) ∘ incomeToTxn s) y = true := by
    intro y hy
    have hbef : Income.dateBefore y i := hcross y hy i hi
    show (! Date.leb (incomeToTxn s y).date t.date) = true
    cases hyt : Date.leb (incomeToTxn s y).date t.date with
    | false => rfl
    | true => exact absurd (Date.leb_trans hbef hyt) hcon
  have hcnt1 : ((incomeSearchTake s (strip q) limit).map
      (incomeToTxn s)).countP (fun x => ! x.date.leb t.date) = limit := by
    unfold incomeSearchTake
    rw [List.countP_map, List.countP_eq_length.mpr hall, List.length_take]
    omega
  have hcnt : limit ≤ (searchMergedAll s (strip q) limit).countP
      (fun x => ! x.date.leb t.date) := by
    unfold searchMergedAll
    rw [List.countP_append, hcnt1]
    exact Nat.le_add_right _ _
  exact sorted_take_no_strictly_later
    (searchMergedAll s (strip q) limit) limit t ht hcnt

theorem search_no_omission_expense (s : Store) (q : String) (limit : Nat)
    (hq : strip q ≠ "") (e : Expense) (t : Txn)
    (he : e ∈ (List.insertionSort Expense.dateBefore
        (s.expenses.filter (expenseSearchPred (strip q)))).drop limit)
    (ht : t ∈ (searchApi s q "all" limit).results) :
    Date.leb e.date t.date = true := by
  by_contra hcon
  rw [searchApi_all s q limit hq] at ht
  have hlen : limit < (List.insertionSort Expense.dateBefore
      (s.expenses.filter (expenseSearchPred (strip q)))).length := by
    by_contra hle
    push_neg at hle
    rw [List.drop_eq_nil_of_le hle] at he
    exact absurd he (List.not_mem_nil e)
  have hLs : List.Pairwise Expense.dateBefore
      ((List.insertionSort Expense.dateBefore
          (s.expenses.filter (expenseSearchPred (strip q)))).take limit
        ++ (List.insertionSort Expense.dateBefore
          (s.expenses.filter (expenseSearchPred (strip q)))).drop limit) := by
    rw [List.take_append_drop]
    exact List.sorted_insertionSort _ _
  obtain ⟨-, -, hcross⟩ := List.pairwise_append.mp hLs
  have hall : ∀ y ∈ (List.insertionSort Expense.dateBefore
      (s.expenses.filter (expenseSearchPred (strip q)))).take limit,
      ((fun x : Txn => ! x.date.leb t.date) ∘ expenseToTxn) y = true := by
    intro y hy
    have hbef : Expense.dateBefore y e := hcross y hy e he
    show (! Date.leb (expenseToTxn y).date t.date) = true
    cases hyt : Date.leb (expenseToTxn y).date t.date with
    | false => rfl
    | true => exact absurd (Date.leb_trans hbef hyt) hcon
  have hcnt1 : ((expenseSearchTake s (strip q) limit).map
      expenseToTxn).countP (fun x => ! x.date.leb t.date) = limit := by
    unfold expenseSearchTake
    rw [List.countP_map, List.countP_eq_length.mpr hall, List.length_take]
    omega
  have hcnt : limit ≤ (searchMergedAll s (strip q) limit).countP
      (fun x => ! x.date.leb t.date) := by
    unfold searchMergedAll
    rw [List.countP_append, hcnt1]
    exact Nat.le_add_left _ _
  exact sorted_take_no_strictly_later
    (searchMergedAll s (strip q) limit) limit t ht hcnt

theorem searchMergedAll_length (s : Store) (q : String) (limit : Nat) :
    (searchMergedAll s q limit).length
      = min limit (s.incomes.filter (incomeSearchPred s q)).length
        + min limit (s.expenses.filter (expenseSearchPred q)).length := by
  unfold searchMergedAll incomeSearchTake expenseSearchTake
  rw [List.length_append, List.length_map, List.length_map,
    List.length_take, List.length_take,
    (List.perm_insertionSort Income.dateBefore _).length_eq,
    (List.perm_insertionSort Expense.dateBefore _).length_eq]

/-- C10 amended: for a `type=all` search with a non-empty query, each
kind is limited to its `limit` most recent matches before merging and
the `count` field reports the pre-truncation merged length (up to two
times `limit`), while `results` is truncated to `limit`, so `count` can
exceed the number of entries returned; however, a match beyond the
per-kind cutoff is never strictly more recent than any returned entry —
the truncation keeps exactly a most-recent selection, and only the
`count` field over-reports. -/
theorem search_count_overreports (s : Store) (q : String) (limit : Nat)
    (hq : strip q ≠ "") :
    (searchApi s q "all" limit).count
        = min limit (s.incomes.filter (incomeSearchPred s (strip q))).length
          + min limit (s.expenses.filter (expenseSearchPred (strip q))).length
  ∧ (searchApi s q "all" limit).results.length
      = min limit (searchApi s q "all" limit).count
  ∧ (searchApi s q "all" limit).count ≤ 2 * limit
  ∧ (∀ i t, i ∈ (List.insertionSort Income.dateBefore
          (s.incomes.filter (incomeSearchPred s (strip q)))).drop limit →
        t ∈ (searchApi s q "all" limit).results →
        Date.leb i.date t.date = true)
  ∧ (∀ e t, e ∈ (List.insertionSort Expense.dateBefore
          (s.expenses.filter (expenseSearchPred (strip q)))).drop limit →
        t ∈ (searchApi s q "all" limit).results →
        Date.leb e.date t.date = true) := by
  refine ⟨?_, ?_, ?_,
    fun i t hi ht => search_no_omission_income s q limit hq i t hi ht,
    fun e t he ht => search_no_omission_expense s q limit hq e t he ht⟩
  · rw [searchApi_all s q limit hq]
    exact searchMergedAll_length s (strip q) limit
  · rw [searchApi_all s q limit hq]
    show (List.take limit _).length = min limit _
    rw [List.length_take, (List.perm_insertionSort Txn.before _).length_eq]
  · rw [searchApi_all s q limit hq]
    show (searchMergedAll s (strip q) limit).length ≤ 2 * limit
    rw [searchMergedAll_length]
    omega

/-- A store with three income matches ("pay …", dated Jan 9, 8, 7) and
one older expense match ("pay rent", Jan 5) for the query `pay`. -/
def exStoreC10 : Store :=
  ⟨[⟨1, "Salary", 0⟩],
   [⟨1, 1, "pay one", 10, ⟨2024, 1, 9⟩, "", 1, 1⟩,
    ⟨2, 1, "pay two", 10, ⟨2024, 1, 8⟩, "", 2, 2⟩,
    ⟨3, 1, "pay three", 10, ⟨2024, 1, 7⟩, "", 3, 3⟩],
   [⟨4, "pay rent", 10, ⟨2024, 1, 5⟩, 4, 4⟩]⟩

/-- C10 counterexample: with limit 2 the count field reports 3 while
only 2 entries are returned — but, contrary to the claim's omission
clause, the income match beyond the per-kind cutoff (dated Jan 7) is
not more recent than any returned entry: both returned entries are at
least as recent as it, and the older other-kind (expense) match is not
returned at all. -/
theorem search_counterexample :
    (searchApi exStoreC10 "pay" "all" 2).count = 3
  ∧ (searchApi exStoreC10 "pay" "all" 2).results.length = 2
  ∧ ((searchApi exStoreC10 "pay" "all" 2).results.any
      (fun t => t.type == "expense")) = false
  ∧ Date.leb ⟨2024, 1, 5⟩ ⟨2024, 1, 7⟩ = true
  ∧ Date.leb ⟨2024, 1, 7⟩ ⟨2024, 1, 5⟩ = false
  ∧ ((searchApi exStoreC10 "pay" "all" 2).results.all
      (fun t => Date.leb ⟨2024, 1, 7⟩ t.date)) = true := by
  decide

/-- Witness for the C10 amended theorem at the concrete store and
query. -/
theorem search_count_overreports_witness :
    strip "pay" ≠ ""
  ∧ ((searchApi exStoreC10 "pay" "all" 2).count
        = min 2 (exStoreC10.incomes.filter
            (incomeSearchPred exStoreC10 (strip "pay"))).length
          + min 2 (exStoreC10.expenses.filter
            (expenseSearchPred (strip "pay"))).length
      ∧ (searchApi exStoreC10 "pay" "all" 2).results.length
          = min 2 (searchApi exStoreC10 "pay" "all" 2).count
      ∧ (searchApi exStoreC10 "pay" "all" 2).count ≤ 2 * 2
      ∧ (∀ i t, i ∈ (List.insertionSort Income.dateBefore
              (exStoreC10.incomes.filter
                (incomeSearchPred exStoreC10 (strip "pay")))).drop 2 →
            t ∈ (searchApi exStoreC10 "pay" "all" 2).results →
            Date.leb i.date t.date = true)
      ∧ (∀ e t, e ∈ (List.insertionSort Expense.dateBefore
              (exStoreC10.expenses.filter
                (expenseSearchPred (strip "pay")))).drop 2 →
            t ∈ (searchApi exStoreC10 "pay" "all" 2).results →
            Date.leb e.date t.date = true)) :=
  ⟨by decide, search_count_overreports exStoreC10 "pay" 2 (by decide)⟩

end SmartWallet
